import Mathlib

/-!
Verification of the date-math mini-language in
`packages/grafana-data/src/datetime/datemath.ts`.

The TypeScript source is embedded shallowly:

* JS strings become `List Char`; `charAt i` becomes an `Option Char`
  (`none` models the empty string returned out of range).
* The moment.js calendar collaborator (`add`, `subtract`, `startOf`,
  `endOf`, `month`) is modelled as a proleptic-Gregorian UTC calendar over
  milliseconds since the Unix epoch (timestamps are plain `Int`), using the standard
  civil-from-days / days-from-civil algorithms.  Month arithmetic clamps
  the day-of-month exactly as moment does.
* The evaluator mutates its `time` argument in place through the alias
  `dateTime`; this is modelled by state passing: `parseDateMathSt` returns
  both the JS return value (`Option Int`) and the final state of the
  caller-supplied timestamp object.
-/

namespace Datemath

def msPerSecond : Int := 1000

def msPerMinute : Int := 60000

def msPerHour : Int := 3600000

def msPerDay : Int := 86400000

/-- A proleptic-Gregorian civil date (month `m` is 1-based). -/
structure CivilDate where
  y : Int
  m : Int
  d : Int
deriving Repr, DecidableEq

/-- Modelled from the spec: the calendar collaborator's notion of civil
date, computed from a count of days since 1970-01-01 (Hinnant's
`civil_from_days` algorithm; Lean's `Int` `/` and `%` are Euclidean, which
for the positive divisors used here agree with the floor division the
algorithm requires). -/
def civilFromDays (z0 : Int) : CivilDate :=
  let z := z0 + 719468
  let era := z / 146097
  let doe := z - era * 146097
  let yoe := (doe - doe / 1460 + doe / 36524 - doe / 146096) / 365
  let y := yoe + era * 400
  let doy := doe - (365 * yoe + yoe / 4 - yoe / 100)
  let mp := (5 * doy + 2) / 153
  let d := doy - (153 * mp + 2) / 5 + 1
  let m := mp + (if mp < 10 then 3 else -9)
  { y := y + (if m ≤ 2 then 1 else 0), m := m, d := d }

/-- Modelled from the spec: inverse conversion, days since 1970-01-01 of a
civil date (Hinnant's `days_from_civil`). -/
def daysFromCivil (y0 m d : Int) : Int :=
  let y := y0 - (if m ≤ 2 then 1 else 0)
  let era := y / 400
  let yoe := y - era * 400
  let mp := m + (if m > 2 then -3 else 9)
  let doy := (153 * mp + 2) / 5 + d - 1
  let doe := yoe * 365 + yoe / 4 - yoe / 100 + doy
  era * 146097 + doe - 719468

/-- Gregorian leap-year test. -/
def isLeap (y : Int) : Bool :=
  decide ((y % 4 = 0 ∧ y % 100 ≠ 0) ∨ y % 400 = 0)

/-- Number of days of month `m` (1-based) of year `y`. -/
def daysInMonth (y m : Int) : Int :=
  if m = 2 then (if isLeap y then 29 else 28)
  else if m = 4 ∨ m = 6 ∨ m = 9 ∨ m = 11 then 30
  else 31

/-- Modelled from the spec: moment's `.month()` — the 0-based month of the
timestamp (the collaborator interface consumed by `roundToFiscal`). -/
def dtMonth (t : Int) : Int :=
  (civilFromDays (t / msPerDay)).m - 1

/-- Modelled from the spec: moment's month shifting — move by `n` calendar
months, clamping the day-of-month to the target month's length and keeping
the time of day. -/
def addMonthsClamped (n : Int) (t : Int) : Int :=
  let c := civilFromDays (t / msPerDay)
  let m0 := c.m - 1 + n
  let y2 := c.y + m0 / 12
  let m2 := m0 % 12 + 1
  let d2 := min c.d (daysInMonth y2 m2)
  daysFromCivil y2 m2 d2 * msPerDay + t % msPerDay

/-- Modelled from the spec: the collaborator's `add(n, unit)` for the eight
unit codes.  Year and quarter ride on month arithmetic (12 resp. 3 months),
exactly as moment implements them; the other units are fixed-length. -/
def dtAdd (n : Int) (u : Char) (t : Int) : Int :=
  if u = 'y' then addMonthsClamped (12 * n) t
  else if u = 'Q' then addMonthsClamped (3 * n) t
  else if u = 'M' then addMonthsClamped n t
  else if u = 'w' then t + n * (7 * msPerDay)
  else if u = 'd' then t + n * msPerDay
  else if u = 'h' then t + n * msPerHour
  else if u = 'm' then t + n * msPerMinute
  else if u = 's' then t + n * msPerSecond
  else t

/-- Modelled from the spec: the collaborator's `subtract(n, unit)`, which
moment implements as adding `-n`. -/
def dtSubtract (n : Int) (u : Char) (t : Int) : Int :=
  dtAdd (-n) u t

/-- Modelled from the spec: the collaborator's `startOf(unit)` — truncate
to the start boundary of the unit (weeks start on Sunday; 1970-01-01 was a
Thursday, hence the `+ 4`). -/
def dtStartOf (u : Char) (t : Int) : Int :=
  if u = 'y' then daysFromCivil (civilFromDays (t / msPerDay)).y 1 1 * msPerDay
  else if u = 'Q' then
    let c := civilFromDays (t / msPerDay)
    daysFromCivil c.y (c.m - (c.m - 1) % 3) 1 * msPerDay
  else if u = 'M' then
    let c := civilFromDays (t / msPerDay)
    daysFromCivil c.y c.m 1 * msPerDay
  else if u = 'w' then (t / msPerDay - (t / msPerDay + 4) % 7) * msPerDay
  else if u = 'd' then (t / msPerDay) * msPerDay
  else if u = 'h' then (t / msPerHour) * msPerHour
  else if u = 'm' then (t / msPerMinute) * msPerMinute
  else if u = 's' then (t / msPerSecond) * msPerSecond
  else t

/-- Modelled from the spec: the collaborator's `endOf(unit)` — the last
millisecond inside the unit, i.e. the start of the next unit minus 1 ms. -/
def dtEndOf (u : Char) (t : Int) : Int :=
  if u = 'y' then addMonthsClamped 12 (dtStartOf 'y' t) - 1
  else if u = 'Q' then addMonthsClamped 3 (dtStartOf 'Q' t) - 1
  else if u = 'M' then addMonthsClamped 1 (dtStartOf 'M' t) - 1
  else if u = 'w' then dtStartOf 'w' t + 7 * msPerDay - 1
  else if u = 'd' then dtStartOf 'd' t + msPerDay - 1
  else if u = 'h' then dtStartOf 'h' t + msPerHour - 1
  else if u = 'm' then dtStartOf 'm' t + msPerMinute - 1
  else if u = 's' then dtStartOf 's' t + msPerSecond - 1
  else t

/-! ### Embedding of `datemath.ts` -/

/-- `const UNITS = ['y', 'M', 'w', 'd', 'h', 'm', 's', 'Q']`. -/
def UNITS : List Char := ['y', 'M', 'w', 'd', 'h', 'm', 's', 'Q']

/-- `const MATH_OP_TYPE_MAP = { '/': 0, '+': 1, '-': 2 }`, looked up at a
1-character string produced by `charAt` (`none` models both the empty
string and any unmapped character: the lookup yields `undefined`). -/
def MATH_OP_TYPE_MAP (c : Option Char) : Option Nat :=
  match c with
  | some '/' => some 0
  | some '+' => some 1
  | some '-' => some 2
  | _ => none

/-- `const MAX_DATE_MATH_STRING_LENGTH = 10`. -/
def MAX_DATE_MATH_STRING_LENGTH : Nat := 10

/-- `const NOW_STRING = 'now'`. -/
def NOW_STRING : List Char := ['n', 'o', 'w']

/-- JS `string.charAt(i)`: the 1-character string at `i`, or the empty
string out of range — modelled as `Option Char`. -/
def jsCharAt (s : List Char) (i : Nat) : Option Char :=
  s[i]?

/-- JS `string.substring(a, b)` for `a ≤ b`: the characters at indices
`[a, b)`. -/
def jsSubstring (s : List Char) (a b : Nat) : List Char :=
  (s.drop a).take (b - a)

/-- The characters removed by the source's `replace(/\s/g, '')` (the JS
`\s` class restricted to the ASCII whitespace actually relevant here). -/
def jsIsSpace (c : Char) : Bool :=
  decide (c = ' ' ∨ c = '\t' ∨ c = '\n' ∨ c = '\r')

/-- `export const isNumber = (input) => /^-?\d+\.?\d*$/.test(String(input))`
restricted to string inputs: an optional minus sign, one or more digits, an
optional decimal point followed by digits. -/
def isNumber (s : List Char) : Bool :=
  let t := match s with
    | '-' :: r => r
    | r => r
  let ds := t.takeWhile Char.isDigit
  let rest := t.drop ds.length
  !ds.isEmpty && (match rest with
    | [] => true
    | '.' :: r => r.all Char.isDigit
    | _ => false)

/-- `isNumber` applied to the result of `charAt`. -/
def jsIsNumber (c : Option Char) : Bool :=
  isNumber c.toList

/-- Numeric value of a run of decimal digits. -/
def digitsVal (ds : List Char) : Int :=
  ds.foldl (fun acc ch => acc * 10 + ((ch.toNat : Int) - 48)) 0

/-- JS `parseInt(s, 10)`: skip leading whitespace, take an optional sign
and then the longest run of leading decimal digits; `none` models `NaN`
(no digits found). -/
def parseIntList (s : List Char) : Option Int :=
  let t := s.dropWhile (fun ch => jsIsSpace ch)
  match t with
  | '-' :: r =>
    if (r.takeWhile Char.isDigit).isEmpty then none
    else some (-(digitsVal (r.takeWhile Char.isDigit)))
  | '+' :: r =>
    if (r.takeWhile Char.isDigit).isEmpty then none
    else some (digitsVal (r.takeWhile Char.isDigit))
  | r =>
    if (r.takeWhile Char.isDigit).isEmpty then none
    else some (digitsVal (r.takeWhile Char.isDigit))

/-- JS `text.includes('||')`: scan for two consecutive bar characters. -/
def includesBarBar : List Char → Bool
  | [] => false
  | [_] => false
  | c1 :: c2 :: rest => (decide (c1 = '|' ∧ c2 = '|')) || includesBarBar (c2 :: rest)

/-- `export function isMathString(text)`, for string inputs:
`text.startsWith(NOW_STRING) || text.includes('||')`. -/
def isMathString (text : List Char) : Bool :=
  NOW_STRING.isPrefixOf text || includesBarBar text

/-- The `while (!isNumber(nextChar())) { if (i > MAX...) return undefined }`
loop inside `getNum`, entered with the scan at `i`; on exit the source
returns `parseInt(strippedMathString.substring(numFrom, i), 10)`.
The first component is the returned number (`none` = `undefined`/`NaN`),
the second the final value of the cursor `i`.  The structural `fuel`
argument only bounds the recursion: the loop stops by `i + 1 > 10` after at
most 11 iterations from any starting cursor, so the 12 units of fuel
supplied by `getNum` can never run out. -/
def getNumLoop (s : List Char) (numFrom : Nat) : Nat → Nat → Option Int × Nat
  | 0, i => (none, i)
  | fuel + 1, i =>
    if jsIsNumber (jsCharAt s i) then (parseIntList (jsSubstring s numFrom (i + 1)), i + 1)
    else if i + 1 > MAX_DATE_MATH_STRING_LENGTH then (none, i + 1)
    else getNumLoop s numFrom fuel (i + 1)

/-- The closure `getNum` of `parseDateMath`, taking the current cursor `i`;
returns the parsed count and the new cursor. -/
def getNum (s : List Char) (i : Nat) : Option Int × Nat :=
  if !jsIsNumber (jsCharAt s i) then (some 1, i)
  else if s.length = 2 then (parseIntList (jsCharAt s i).toList, i)
  else getNumLoop s i (MAX_DATE_MATH_STRING_LENGTH + 2) i

/-- `export function roundToFiscal(fyStartMonth, dateTime, unit, roundUp)`.
The source mutates `dateTime` in place and returns it (or `undefined` for
an unsupported unit, mutating nothing); value semantics: `some` carries the
mutated timestamp.  The round-up case recursively computes the round-down
boundary, then adds 11 (year) resp. 2 (quarter) months and takes the end of
that month.  JS `%` is truncating remainder, hence `Int.tmod`. -/
def roundToFiscal (fyStartMonth : Int) (dt : Int) (unit : Char) (roundUp : Bool) : Option Int :=
  if unit = 'y' then
    -- `down` is the value produced by the source's round-down branch; the
    -- round-up branch first makes the single recursive call
    -- `roundToFiscal(fyStartMonth, dateTime, unit, false)` — which computes
    -- exactly `down` (recursion depth is always exactly 1) — and then
    -- mutates its result further, so the call is inlined here.
    let down := dtStartOf 'M' (dtSubtract ((dtMonth dt - fyStartMonth + 12).tmod 12) 'M' dt)
    if roundUp then some (dtEndOf 'M' (dtAdd 11 'M' down)) else some down
  else if unit = 'Q' then
    let down := dtStartOf 'M' (dtSubtract ((dtMonth dt - fyStartMonth + 3).tmod 3) 'M' dt)
    if roundUp then some (dtEndOf 'M' (dtAdd 2 'M' down)) else some down
  else none

/-- The `while (i < len)` scan of `parseDateMath`, with the cursor `i` and
the running timestamp `dt` (the alias `dateTime` of the caller's `time`
object) made explicit.  Returns the JS return value and the final state of
the mutated timestamp.  `fuel` only bounds the recursion: every iteration
advances `i` by at least 2 while the loop runs only while `i < s.length`,
so the initial `s.length + 1` can never be exhausted. -/
def pdLoop (s : List Char) (ru : Bool) (fy : Int) : Nat → Nat → Int →
    Option Int × Int
  | 0, _, dt => (none, dt)
  | fuel + 1, i, dt =>
    if i < s.length then
      let type? := MATH_OP_TYPE_MAP (jsCharAt s i)
      let g := getNum s (i + 1)
      let c := jsCharAt s g.2
      let isFiscal : Bool := if c = some 'f' then true else false
      let unit := if isFiscal then jsCharAt s (g.2 + 1) else c
      let iNext := if isFiscal then g.2 + 2 else g.2 + 1
      match type?, unit with
      | some t, some u =>
        if (t = 0 ∧ g.1 ≠ some 1) ∨ u ∉ UNITS then (none, dt)
        else
          match g.1 with
          | some num =>
            let dt2 :=
              if t = 0 then
                if isFiscal then (roundToFiscal fy dt u ru).getD dt
                else if ru then dtEndOf u dt
                else dtStartOf u dt
              else if t = 1 then dtAdd num u dt
              else dtSubtract num u dt
            pdLoop s ru fy fuel iNext dt2
          | none =>
            -- Unreachable: `getNum` only reaches its scanning loop after
            -- seeing a digit, and that loop then stops at once with a value.
            (none, dt)
      | _, _ => (none, dt)
    else (some dt, dt)

/-- `export function parseDateMath(mathString, time, roundUp, fiscalYearStartMonth = 0)`
with the in-place mutation of `time` made explicit: the first component is
the JS return value (`none` = `undefined`), the second the final state of
the caller-supplied `time` object (aliased as `dateTime` in the source). -/
def parseDateMathSt (mathString : List Char) (time : Int) (roundUp : Bool)
    (fiscalYearStartMonth : Int) : Option Int × Int :=
  let s := mathString.filter (fun ch => !jsIsSpace ch)
  pdLoop s roundUp fiscalYearStartMonth (s.length + 1) 0 time

/-- The JS return value of `parseDateMath`. -/
def parseDateMath (mathString : List Char) (time : Int) (roundUp : Bool)
    (fiscalYearStartMonth : Int) : Option Int :=
  (parseDateMathSt mathString time roundUp fiscalYearStartMonth).1

/-- JS `text.split('||')`: the list of segments between leftmost
non-overlapping occurrences of `||`. -/
def splitOnBars : List Char → List (List Char)
  | [] => [[]]
  | '|' :: '|' :: rest => [] :: splitOnBars rest
  | c :: rest =>
    match splitOnBars rest with
    | [] => [[c]]
    | p :: ps => (c :: p) :: ps

/-- `export function parse(text, roundUp, timezone, fiscalYearStartMonth)`
for string inputs.  The two collaborator constructors are injected:
`isoParse` models `dateTime(str, ISO_8601)` and `nowTime` the value of
`dateTimeForTimeZone(timezone)` at the call.  `const [left, right] =
text.split('||')`; `!right` is JS falsiness (`undefined` or empty),
`right ?? ''` only replaces `undefined`. -/
def parse (isoParse : List Char → Int) (nowTime : Int) (text : List Char)
    (roundUp : Bool) (fy : Int) : Option Int :=
  if text = [] then none
  else
    let parts := splitOnBars text
    let left := parts.headD []
    let right := parts[1]?
    let time := if NOW_STRING.isPrefixOf text then nowTime
      else isoParse (if right = none ∨ right = some [] then text else left)
    let mathString := if NOW_STRING.isPrefixOf text then text.drop NOW_STRING.length
      else right.getD []
    if mathString = [] then some time
    else parseDateMath mathString time roundUp fy

/-! ### Helper lemmas -/

set_option maxRecDepth 8000

/-- The collaborator's `month()` always lies in `0..11` (bounds of the
Hinnant conversion, discharged by linear integer arithmetic). -/
theorem dtMonth_bounds (t : Int) : 0 ≤ dtMonth t ∧ dtMonth t ≤ 11 := by
  unfold dtMonth civilFromDays msPerDay
  dsimp only
  split <;> omega

/-- Truncating to the start of a day is idempotent. -/
theorem dtStartOf_day_idem (t : Int) : dtStartOf 'd' (dtStartOf 'd' t) = dtStartOf 'd' t := by
  show ((t / 86400000 * 86400000) / 86400000) * 86400000 = (t / 86400000) * 86400000
  omega

/-- `startsWith 'now'` expressed as an explicit decomposition. -/
theorem now_isPrefixOf_iff (s : List Char) :
    NOW_STRING.isPrefixOf s = true ↔ ∃ t, s = NOW_STRING ++ t := by
  rw [List.isPrefixOf_iff_prefix]
  constructor
  · rintro ⟨t, ht⟩
    exact ⟨t, ht.symm⟩
  · rintro ⟨t, rfl⟩
    exact ⟨t, rfl⟩

/-- `includes('||')` expressed as an explicit decomposition. -/
theorem includesBarBar_iff (s : List Char) :
    includesBarBar s = true ↔ ∃ a b, s = a ++ '|' :: '|' :: b := by
  induction s with
  | nil =>
    constructor
    · intro h
      simp [includesBarBar] at h
    · rintro ⟨a, b, h⟩
      rcases a with _ | ⟨x, a⟩ <;> simp at h
  | cons c rest ih =>
    cases rest with
    | nil =>
      constructor
      · intro h
        simp [includesBarBar] at h
      · rintro ⟨a, b, h⟩
        rcases a with _ | ⟨x, a⟩ <;> simp at h
    | cons c2 rest2 =>
      rw [show includesBarBar (c :: c2 :: rest2) =
          ((decide (c = '|' ∧ c2 = '|')) || includesBarBar (c2 :: rest2)) from rfl]
      rw [Bool.or_eq_true, decide_eq_true_eq, ih]
      constructor
      · rintro (⟨rfl, rfl⟩ | ⟨a, b, h⟩)
        · exact ⟨[], rest2, rfl⟩
        · exact ⟨c :: a, b, by simp [h]⟩
      · rintro ⟨a, b, h⟩
        rcases a with _ | ⟨x, a⟩
        · simp only [List.nil_append, List.cons.injEq] at h
          exact Or.inl ⟨h.1, h.2.1⟩
        · simp only [List.cons_append, List.cons.injEq] at h
          exact Or.inr ⟨a, b, h.2⟩

/-! ### Claims -/

/-- C1: the claim says a `+`-operation whose count is a run of 1 to 10
decimal digits consumes the whole run and advances the timestamp, with only
runs longer than 10 digits being Invalid.  The code's digit-scanning loop
`while (!isNumber(nextChar()))` exits on the first character scanned (the
guard guarantees it is a digit), so only the first digit is consumed and
the second digit is then read as the unit character, which makes every
multi-digit count Invalid — `'+12d'` (a 2-digit run) yields `undefined`
while the claim requires a 12-day shift; single-digit counts as in
`'+2d'` still work.  The `i > MAX_DATE_MATH_STRING_LENGTH` cap inside the
loop is unreachable, evidencing that the spec describes the intended
behavior and the code's inverted loop condition is the slip. -/
theorem c1_digit_run_code_bug :
    parseDateMath ['+', '1', '2', 'd'] 0 false 0 = none ∧
    parseDateMath ['+', '2', 'd'] 0 false 0 = some (2 * msPerDay) := by decide

/-- C2 counterexample: the claim says a malformed math-string leaves the
caller-supplied starting timestamp unchanged by the operations preceding
the failure point.  On `'+1d+1x'` starting from `0`, the code returns the
Invalid signal, but the caller's timestamp object (mutated in place
through the alias `dateTime`) ends at `86400000` — shifted by the `+1d`
that preceded the failure — not at `0` as the claim requires. -/
theorem c2_counterexample :
    parseDateMathSt ['+', '1', 'd', '+', '1', 'x'] 0 false 0 = (none, 86400000) ∧
    (86400000 : Int) ≠ 0 := by decide

/-- C2 amended: a malformed math-string is a terminal failure for the
whole parse — `evaluateMath` returns the explicit no-result signal — but
the caller-supplied timestamp is mutated in place, so operations preceding
the failure point do leave it shifted: `'+1d+1x'` returns no result while
leaving the caller's timestamp advanced by one day. -/
theorem c2_amended (T : Int) (ru : Bool) (fy : Int) :
    parseDateMathSt ['+', '1', 'd', '+', '1', 'x'] T ru fy = (none, dtAdd 1 'd' T) := by
  simp [parseDateMath, parseDateMathSt, pdLoop, getNum, getNumLoop, jsCharAt, jsIsNumber,
    isNumber, jsSubstring, parseIntList, digitsVal, jsIsSpace, MATH_OP_TYPE_MAP, UNITS,
    MAX_DATE_MATH_STRING_LENGTH, roundToFiscal, dtAdd, dtSubtract]

/-- C3 counterexample: the claim says a fiscal Round with a unit other
than `'y'`/`'Q'` — e.g. the math-string `'/fd'` — fails the entire
expression with Invalid.  In the code `roundToFiscal` does return
`undefined` for such units, but `parseDateMath` discards that return value
(`roundToFiscal(...); break;`), so `'/fd'` is a silent no-op: evaluating it
at timestamp `7` returns `some 7`, not the Invalid signal. -/
theorem c3_counterexample :
    parseDateMath ['/', 'f', 'd'] 7 false 0 = some 7 ∧
    parseDateMath ['/', 'f', 'd'] 7 false 0 ≠ none := by decide

/-- C3 amended: for a fiscal Round with any of the six non-fiscal unit
codes, `roundToFiscal` itself yields no result (and mutates nothing), but
the expression does not fail: the operation is a no-op and the timestamp
passes through unchanged. -/
theorem c3_amended (u : Char) (hu : u ∈ (['M', 'w', 'd', 'h', 'm', 's'] : List Char))
    (T : Int) (ru : Bool) (fy : Int) :
    roundToFiscal fy T u ru = none ∧ parseDateMath ['/', 'f', u] T ru fy = some T := by
  fin_cases hu <;>
    constructor <;>
    simp [parseDateMath, parseDateMathSt, pdLoop, getNum, getNumLoop, jsCharAt, jsIsNumber,
    isNumber, jsSubstring, parseIntList, digitsVal, jsIsSpace, MATH_OP_TYPE_MAP, UNITS,
    MAX_DATE_MATH_STRING_LENGTH, roundToFiscal, dtAdd, dtSubtract]

/-- C3 amended, witness at `u = 'd'`, `T = 123`. -/
theorem c3_amended_witness :
    roundToFiscal 0 123 'd' false = none ∧ parseDateMath ['/', 'f', 'd'] 123 false 0 = some 123 :=
  c3_amended 'd' (by decide) 123 false 0

/-- C4 counterexample: the claim says that for an input starting with
`'now'` the math string is everything after the `'now'` prefix up to the
`'||'` separator, the separator itself excluded.  For `'now||+1d'` that
reading gives the empty math string, so `parse` would return the anchor
(`some 5` below).  The code instead takes `text.substring(3)` — the whole
remainder `'||+1d'`, separator included — which fails on the `'|'`
operator, so `parse` returns no result. -/
theorem c4_counterexample :
    parse (fun _ => 0) 5 ['n', 'o', 'w', '|', '|', '+', '1', 'd'] false 0 = none ∧
    (none : Option Int) ≠ some 5 := by decide

/-- C4 amended: for an input starting with `'now'`, `parse` anchors at the
current instant (the ISO parser is never consulted) and hands the
evaluator the entire remainder after the `'now'` prefix — including any
`'||'` separator and what follows it. -/
theorem c4_amended (isoParse : List Char → Int) (nowTime : Int) (text : List Char)
    (ru : Bool) (fy : Int) (h : NOW_STRING.isPrefixOf text = true) :
    parse isoParse nowTime text ru fy =
      (if text.drop 3 = [] then some nowTime
       else parseDateMath (text.drop 3) nowTime ru fy) := by
  obtain ⟨t, rfl⟩ := (now_isPrefixOf_iff text).mp h
  have hne : NOW_STRING ++ t ≠ [] := by simp [NOW_STRING]
  have hdropL : (NOW_STRING ++ t).drop NOW_STRING.length = t := List.drop_left NOW_STRING t
  have hdrop3 : (NOW_STRING ++ t).drop 3 = t := by simp [NOW_STRING]
  have hpre : NOW_STRING.isPrefixOf (NOW_STRING ++ t) = true :=
    List.isPrefixOf_iff_prefix.mpr ⟨t, rfl⟩
  simp only [parse, hne, hpre, hdropL, hdrop3, if_true, if_false, ite_true, ite_false]

/-- C4 amended, witness at `'now-1h'`. -/
theorem c4_amended_witness :
    parse (fun _ => 0) 42 ['n', 'o', 'w', '-', '1', 'h'] false 0 =
      (if (['n', 'o', 'w', '-', '1', 'h'] : List Char).drop 3 = [] then some 42
       else parseDateMath ((['n', 'o', 'w', '-', '1', 'h'] : List Char).drop 3) 42 false 0) :=
  c4_amended (fun _ => 0) 42 ['n', 'o', 'w', '-', '1', 'h'] false 0 (by decide)

/-- C5 counterexample: the claim asserts the add/subtract round trip for
all counts `n ≥ 0` and all valid unit codes, excepting only month/year
clamping.  Two failures: (1) `n = 10`, unit `'d'` — the digit scanner
rejects multi-digit counts, so the round trip produces no timestamp at
all; (2) unit `'Q'` with `n = 1` from 2021-01-31 — quarters are
month-based, so day-of-month clamping (Jan 31 → Apr 30 → Jan 30) breaks
the round trip even though `'Q'` is not month or year. -/
theorem c5_counterexample :
    (parseDateMath ['+', '1', '0', 'd'] 0 false 0).bind
        (fun x => parseDateMath ['-', '1', '0', 'd'] x false 0) = none ∧
    (none : Option Int) ≠ some 0 ∧
    (parseDateMath ['+', '1', 'Q'] (daysFromCivil 2021 1 31 * msPerDay) false 0).bind
        (fun x => parseDateMath ['-', '1', 'Q'] x false 0) =
      some (daysFromCivil 2021 1 30 * msPerDay) ∧
    daysFromCivil 2021 1 30 * msPerDay ≠ daysFromCivil 2021 1 31 * msPerDay := by decide

/-- C5 amended: for every single-digit count (the only counts this code's
digit scanner accepts) and every fixed-length unit (`w`, `d`, `h`, `m`,
`s`), `evaluateMath('+{n}{u}')` followed by `evaluateMath('-{n}{u}')`
returns the original timestamp; for the month-based units (`M`, `y`, `Q`)
day-of-month clamping may break the symmetry. -/
theorem c5_amended (c : Char)
    (hc : c ∈ (['0', '1', '2', '3', '4', '5', '6', '7', '8', '9'] : List Char)) (u : Char)
    (hu : u ∈ (['w', 'd', 'h', 'm', 's'] : List Char)) (T : Int) :
    (parseDateMath ['+', c, u] T false 0).bind
      (fun x => parseDateMath ['-', c, u] x false 0) = some T := by
  fin_cases hc <;> fin_cases hu <;>
    simp [parseDateMath, parseDateMathSt, pdLoop, getNum, getNumLoop, jsCharAt, jsIsNumber,
    isNumber, jsSubstring, parseIntList, digitsVal, jsIsSpace, MATH_OP_TYPE_MAP, UNITS,
    MAX_DATE_MATH_STRING_LENGTH, roundToFiscal, dtAdd, dtSubtract]

/-- C5 amended, witness at `'+3d'` / `'-3d'`, `T = 0`. -/
theorem c5_amended_witness :
    (parseDateMath ['+', '3', 'd'] 0 false 0).bind
      (fun x => parseDateMath ['-', '3', 'd'] x false 0) = some 0 :=
  c5_amended '3' (by decide) 'd' (by decide) 0

/-- C6: a Round operation accepts only count 1 — for every unit code,
`'/{k}{u}'` with a single-digit count `k ≠ 1` is Invalid, while
`'/{u}'` and `'/1{u}'` are both accepted (each returns a timestamp, not
the Invalid signal) and produce equal results. -/
theorem c6_round_count_one (u : Char) (hu : u ∈ UNITS) (k : Nat) (hk : k ≤ 9)
    (hk1 : k ≠ 1) (T : Int) (ru : Bool) (fy : Int) :
    parseDateMath ['/', Nat.digitChar k, u] T ru fy = none ∧
    parseDateMath ['/', u] T ru fy = parseDateMath ['/', '1', u] T ru fy ∧
    parseDateMath ['/', u] T ru fy ≠ none ∧
    parseDateMath ['/', '1', u] T ru fy ≠ none := by
  simp only [UNITS] at hu
  refine ⟨?_, ?_, ?_, ?_⟩
  · interval_cases k <;> first
      | exact absurd rfl hk1
      | fin_cases hu <;> simp [parseDateMath, parseDateMathSt, pdLoop, getNum, getNumLoop, jsCharAt, jsIsNumber,
    isNumber, jsSubstring, parseIntList, digitsVal, jsIsSpace, MATH_OP_TYPE_MAP, UNITS,
    MAX_DATE_MATH_STRING_LENGTH, roundToFiscal, dtAdd, dtSubtract, Nat.digitChar]
  · fin_cases hu <;> simp [parseDateMath, parseDateMathSt, pdLoop, getNum, getNumLoop, jsCharAt, jsIsNumber,
    isNumber, jsSubstring, parseIntList, digitsVal, jsIsSpace, MATH_OP_TYPE_MAP, UNITS,
    MAX_DATE_MATH_STRING_LENGTH, roundToFiscal, dtAdd, dtSubtract]
  · fin_cases hu <;> simp [parseDateMath, parseDateMathSt, pdLoop, getNum, getNumLoop, jsCharAt, jsIsNumber,
    isNumber, jsSubstring, parseIntList, digitsVal, jsIsSpace, MATH_OP_TYPE_MAP, UNITS,
    MAX_DATE_MATH_STRING_LENGTH, roundToFiscal, dtAdd, dtSubtract]
  · fin_cases hu <;> simp [parseDateMath, parseDateMathSt, pdLoop, getNum, getNumLoop, jsCharAt, jsIsNumber,
    isNumber, jsSubstring, parseIntList, digitsVal, jsIsSpace, MATH_OP_TYPE_MAP, UNITS,
    MAX_DATE_MATH_STRING_LENGTH, roundToFiscal, dtAdd, dtSubtract]

/-- C6, witness at `u = 'd'`, `k = 2`. -/
theorem c6_witness :
    parseDateMath ['/', Nat.digitChar 2, 'd'] 0 false 0 = none ∧
    parseDateMath ['/', 'd'] 0 false 0 = parseDateMath ['/', '1', 'd'] 0 false 0 ∧
    parseDateMath ['/', 'd'] 0 false 0 ≠ none ∧
    parseDateMath ['/', '1', 'd'] 0 false 0 ≠ none :=
  c6_round_count_one 'd' (by decide) 2 (by decide) (by decide) 0 false 0

/-- C7 counterexample: the claim says fiscal round-down for the quarter
unit moves backward by the year formula "with modulus 3", i.e.
`(currentMonth − fiscalStartMonth + 3) mod 3` months (mathematical,
non-negative modulus).  The code computes that quantity with the JS
truncating remainder, which can be negative when the dividend is negative:
with `fiscalStartMonth = 11` at the epoch (January 1970, month 0) the
dividend is `-8` and the remainder `-2`, so the code moves the timestamp forward to
1970-03-01 (`5097600000`) instead of backward to 1969-12-01 as the claimed
formula requires. -/
theorem c7_counterexample :
    roundToFiscal 11 0 'Q' false = some 5097600000 ∧
    roundToFiscal 11 0 'Q' false ≠
      some (dtStartOf 'M' (dtSubtract ((dtMonth 0 - 11 + 3) % 3) 'M' 0)) := by decide

/-- C7 amended: for a fiscal-year start month in `0..11`, fiscal
round-down for the year unit subtracts `(month − fyStart + 12) mod 12`
months (the dividend is never negative, so the JS remainder is the
mathematical modulus) and snaps to the start of that month; for the
quarter unit the code subtracts `(month − fyStart + 3)` truncating-
remainder 3 months — which agrees with the claimed mathematical modulus
whenever `fyStart ≤ month + 3` (for larger `fyStart` it can differ and
even move the timestamp forward, as the counterexample shows); round-up
for either unit applies the round-down boundary once (recursion depth 1),
then adds 11 resp. 2 months and snaps to the end of that month. -/
theorem c7_amended (fy : Int) (h0 : 0 ≤ fy) (h1 : fy ≤ 11) (T : Int) :
    roundToFiscal fy T 'y' false =
      some (dtStartOf 'M' (dtSubtract ((dtMonth T - fy + 12) % 12) 'M' T)) ∧
    roundToFiscal fy T 'Q' false =
      some (dtStartOf 'M' (dtSubtract ((dtMonth T - fy + 3).tmod 3) 'M' T)) ∧
    (fy ≤ dtMonth T + 3 →
      roundToFiscal fy T 'Q' false =
        some (dtStartOf 'M' (dtSubtract ((dtMonth T - fy + 3) % 3) 'M' T))) ∧
    roundToFiscal fy T 'y' true =
      (roundToFiscal fy T 'y' false).map (fun d => dtEndOf 'M' (dtAdd 11 'M' d)) ∧
    roundToFiscal fy T 'Q' true =
      (roundToFiscal fy T 'Q' false).map (fun d => dtEndOf 'M' (dtAdd 2 'M' d)) := by
  have hm := dtMonth_bounds T
  have h12 : (dtMonth T - fy + 12).tmod 12 = (dtMonth T - fy + 12) % 12 :=
    Int.tmod_eq_emod (by omega) (by omega)
  refine ⟨?_, ?_, fun hq => ?_, ?_, ?_⟩
  · simp [roundToFiscal, h12]
  · simp [roundToFiscal]
  · have h3 : (dtMonth T - fy + 3).tmod 3 = (dtMonth T - fy + 3) % 3 :=
      Int.tmod_eq_emod (by omega) (by omega)
    simp [roundToFiscal, h3]
  · simp [roundToFiscal]
  · simp [roundToFiscal]

/-- C7 amended, witness at `fyStart = 3`, `T` = 2021-06-15 (month 5). -/
theorem c7_witness :
    roundToFiscal 3 1623715200000 'y' false =
      some (dtStartOf 'M' (dtSubtract ((dtMonth 1623715200000 - 3 + 12) % 12) 'M' 1623715200000)) ∧
    roundToFiscal 3 1623715200000 'Q' false =
      some (dtStartOf 'M' (dtSubtract ((dtMonth 1623715200000 - 3 + 3).tmod 3) 'M' 1623715200000)) ∧
    ((3 : Int) ≤ dtMonth 1623715200000 + 3 →
      roundToFiscal 3 1623715200000 'Q' false =
        some (dtStartOf 'M' (dtSubtract ((dtMonth 1623715200000 - 3 + 3) % 3) 'M' 1623715200000))) ∧
    roundToFiscal 3 1623715200000 'y' true =
      (roundToFiscal 3 1623715200000 'y' false).map (fun d => dtEndOf 'M' (dtAdd 11 'M' d)) ∧
    roundToFiscal 3 1623715200000 'Q' true =
      (roundToFiscal 3 1623715200000 'Q' false).map (fun d => dtEndOf 'M' (dtAdd 2 'M' d)) :=
  c7_amended 3 (by decide) (by decide) 1623715200000

/-- C8: rounding down to the start of a day is idempotent — evaluating
`'/d'` twice equals evaluating it once. -/
theorem c8_round_idempotent (T : Int) :
    (parseDateMath ['/', 'd'] T false 0).bind
      (fun x => parseDateMath ['/', 'd'] x false 0) = parseDateMath ['/', 'd'] T false 0 := by
  simp [parseDateMath, parseDateMathSt, pdLoop, getNum, getNumLoop, jsCharAt, jsIsNumber,
    isNumber, jsSubstring, parseIntList, digitsVal, jsIsSpace, MATH_OP_TYPE_MAP, UNITS,
    MAX_DATE_MATH_STRING_LENGTH, roundToFiscal, dtAdd, dtSubtract, dtStartOf_day_idem]

/-- C9: `isMathString` returns true exactly when the text starts with the
literal `'now'` or contains the `'||'` separator; in particular it is true
for `'now-1h'` and `'2021-01-01||+1d'` and false for `'2021-01-01'`. -/
theorem c9_isMathString_spec :
    (∀ s : List Char,
      isMathString s = true ↔
        ((∃ t, s = NOW_STRING ++ t) ∨ ∃ a b, s = a ++ '|' :: '|' :: b)) ∧
    isMathString ['n', 'o', 'w', '-', '1', 'h'] = true ∧
    isMathString ['2', '0', '2', '1', '-', '0', '1', '-', '0', '1'] = false ∧
    isMathString ['2', '0', '2', '1', '-', '0', '1', '-', '0', '1', '|', '|', '+', '1', 'd'] = true := by
  refine ⟨fun s => ?_, by decide, by decide, by decide⟩
  rw [show isMathString s = (NOW_STRING.isPrefixOf s || includesBarBar s) from rfl,
    Bool.or_eq_true, now_isPrefixOf_iff, includesBarBar_iff]

/-- C10: on Add/Subtract operations the fiscal flag `'f'` before the unit
is accepted for every unit code and has no effect:
`evaluateMath('+1f{u}', T) = evaluateMath('+1{u}', T)` and likewise for
`'-'`. -/
theorem c10_fiscal_flag_ignored (u : Char) (hu : u ∈ UNITS) (T : Int) (ru : Bool) (fy : Int) :
    parseDateMath ['+', '1', 'f', u] T ru fy = parseDateMath ['+', '1', u] T ru fy ∧
    parseDateMath ['-', '1', 'f', u] T ru fy = parseDateMath ['-', '1', u] T ru fy := by
  simp only [UNITS] at hu
  fin_cases hu <;>
    constructor <;>
    simp [parseDateMath, parseDateMathSt, pdLoop, getNum, getNumLoop, jsCharAt, jsIsNumber,
    isNumber, jsSubstring, parseIntList, digitsVal, jsIsSpace, MATH_OP_TYPE_MAP, UNITS,
    MAX_DATE_MATH_STRING_LENGTH, roundToFiscal, dtAdd, dtSubtract]

/-- C10, witness at `u = 'd'`, `T = 0`. -/
theorem c10_witness :
    parseDateMath ['+', '1', 'f', 'd'] 0 false 0 = parseDateMath ['+', '1', 'd'] 0 false 0 ∧
    parseDateMath ['-', '1', 'f', 'd'] 0 false 0 = parseDateMath ['-', '1', 'd'] 0 false 0 :=
  c10_fiscal_flag_ignored 'd' (by decide) 0 false 0

end Datemath
